import Mathlib

/-!
Shallow embedding of the EcoDrive Query API conversation-routing pipeline
(`app/main.py`, `app/services/llm_service.py`, `app/services/rag_service.py`,
`app/services/external_api.py`, `app/models/schemas.py`).

External calls (OpenAI chat completions, the user-profile HTTP lookup, the
Chatwoot notification HTTP call) are modelled by an `Oracle` record: each
field holds the outcome of the corresponding external call for the cycle
under consideration, with `none` standing for the `except`-handled failure
path of that call.  Python's list mutation through the shared `history`
reference is modelled by explicit value passing: every service helper
returns, next to its result, the history list as the caller sees it after
the call, reproducing the `messages = history or []` / `messages.append`
pattern (the caller's list is extended exactly when it was non-empty,
because `or` substitutes a fresh list for an empty one).
-/

namespace EcoDrive

/-- One conversation turn as stored in the `conversations` dict of
`app/main.py`: a dict with keys `role` and `content`. -/
structure Turn where
  role : String
  content : String
deriving DecidableEq

/-- A conversation history: the list value stored per conversation id. -/
abbrev History := List Turn

/-- The dict entry `{"role": "user", "content": q}` appended in `main.py`
and in every service helper. -/
def userTurn (q : String) : Turn := ⟨"user", q⟩

/-- The dict entry `{"role": "assistant", "content": a}` appended at
`main.py` line 168. -/
def assistantTurn (a : String) : Turn := ⟨"assistant", a⟩

/-- The process-wide `conversations : Dict[str, List[Dict]]` store of
`main.py` line 57, modelled as an association list with unique keys. -/
abbrev Store := List (String × History)

/-- `conversations.get(cid)`: lookup of a conversation id. -/
def storeGet : Store → String → Option History
  | [], _ => none
  | (k, v) :: rest, cid => if k = cid then some v else storeGet rest cid

/-- `conversations[cid] = h`: replace the binding for `cid`, or add it. -/
def storeSet : Store → String → History → Store
  | [], cid, h => [(cid, h)]
  | (k, v) :: rest, cid, h =>
      if k = cid then (cid, h) :: rest else (k, v) :: storeSet rest cid h

/-- `del conversations[cid]`: remove every binding for `cid` (a Python dict
holds at most one). -/
def storeDel : Store → String → Store
  | [], _ => []
  | (k, v) :: rest, cid =>
      if k = cid then storeDel rest cid else (k, v) :: storeDel rest cid

/-- `UserData` from `app/models/schemas.py`: all fields default to the
"unknown caller" values. -/
structure UserData where
  id : Int := 0
  phone : String := ""
  name : String := ""
  empresa : String := ""
  cb_intent : String := ""
deriving DecidableEq

/-- `QueryRequest` from `app/models/schemas.py` (`query` and `phone` are
required, `conversation_id` is optional). -/
structure QueryRequest where
  query : String
  phone : String
  conversation_id : Option String := none
deriving DecidableEq

/-- `QueryResponse` from `app/models/schemas.py`, as populated by
`process_query` in `main.py` lines 173-177. -/
structure QueryResponse where
  answer : String
  intent : String
  conversation_id : String
deriving DecidableEq

/-- Outcomes of the external calls made during one routing cycle.  For
each LLM call, `some s` is the text (or parsed intent) it returned and
`none` is the exception path of the surrounding `try`/`except`.  For the
intent classifier, `none` also covers a JSON reply without an `intent`
key, since `result.get("intent", "outros")` and the `except` branch both
yield `"outros"`.  `userRes = none` is an HTTP failure of
`get_user_by_phone`; `notifyOk` is the boolean outcome of
`notify_chatwoot_label`; `numDatasets` is `len(self.dataset_ids)` of the
RAG service. -/
structure Oracle where
  userRes : Option UserData := none
  classifyRes : Option String := none
  greetingRes : Option String := none
  improveRes : Option String := none
  ragRes : Option String := none
  attendanceRes : Option String := none
  praiseRes : Option String := none
  otherRes : Option String := none
  notifyOk : Bool := true
  numDatasets : Nat := 0
deriving DecidableEq

/-- The `messages = history or []` / `messages.append({"role": "user",
"content": query})` pattern shared by every LLM helper: the caller's
history list gains the user turn exactly when it was non-empty
(Python's `or` replaces an empty list by a fresh unshared one, so the
append is then invisible to the caller). -/
def appendUserIfNonEmpty (query : String) (history : History) : History :=
  if history.isEmpty then history else history ++ [userTurn query]

/-- `ExternalAPIService.get_user_by_phone`: on any error the default
`UserData()` is returned and the pipeline continues. -/
def get_user_by_phone (res : Option UserData) : UserData :=
  res.getD {}

/-- `LLMService.classify_intent`: returns `result.get("intent", "outros")`
on success and `"outros"` on exception; mutates the shared history per
`appendUserIfNonEmpty`. -/
def classify_intent (res : Option String) (query : String) (history : History) :
    String × History :=
  (res.getD "outros", appendUserIfNonEmpty query history)

/-- Hardcoded fallback of `LLMService.generate_greeting` (line 185). -/
def greetingFallback : String :=
  "Hola! 😊 Soy Rodrigo de EcoDrive. ¿Cómo puedo ayudarte?"

/-- Hardcoded fallback of `LLMService.generate_attendance_response`
(line 237). -/
def attendanceFallback : String :=
  "Déjame conectarte con un asesor humano. Puedes comunicarte al +56 9 5008 0442 😊"

/-- Hardcoded fallback of `LLMService.generate_praise_response`
(line 288). -/
def praiseFallback : String :=
  "¡Muchas gracias! 😊 Estamos aquí para ayudarte siempre."

/-- Hardcoded fallback of `LLMService.generate_other_response`
(line 339). -/
def otherFallback : String :=
  "Disculpa, no puedo ayudarte con eso. ¿Te gustaría que te conecte con un asesor humano? 😊"

/-- Hardcoded fallback of `RAGService.generate_rag_response` (line 160);
the source file literally contains these mojibake characters. -/
def ragFallback : String :=
  "Disculpa, tuve un problema al procesar tu consulta. ¬øPodr√≠as intentarlo nuevamente? üòä"

/-- `LLMService.generate_greeting`: LLM text on success, its own fallback
on failure; the `user_name` only enters the prompt, never the result
shape. -/
def generate_greeting (res : Option String) (query : String)
    (user_name : String) (history : History) : String × History :=
  (res.getD greetingFallback, appendUserIfNonEmpty query history)

/-- `LLMService.generate_attendance_response`. -/
def generate_attendance_response (res : Option String) (query : String)
    (history : History) : String × History :=
  (res.getD attendanceFallback, appendUserIfNonEmpty query history)

/-- `LLMService.generate_praise_response`. -/
def generate_praise_response (res : Option String) (query : String)
    (history : History) : String × History :=
  (res.getD praiseFallback, appendUserIfNonEmpty query history)

/-- `LLMService.generate_other_response`. -/
def generate_other_response (res : Option String) (query : String)
    (history : History) : String × History :=
  (res.getD otherFallback, appendUserIfNonEmpty query history)

/-- `LLMService.improve_query_for_rag`: on exception the original query is
returned unchanged (line 384). -/
def improve_query_for_rag (res : Option String) (query : String)
    (history : History) : String × History :=
  (res.getD query, appendUserIfNonEmpty query history)

/-- `RAGService.retrieve_context`: the placeholder implementation always
returns the fixed f-string built from the query and the number of
configured datasets (the source file literally contains the mojibake
characters reproduced here). -/
def retrieve_context (query : String) (numDatasets : Nat) : String :=
  "\n[NOTA: Esta √© uma implementa√ß√£o placeholder. Integre com seu banco de dados vetorial]\n\nQuery: "
    ++ query
    ++ "\n\nPara implementar a busca real:\n1. Use OpenAI embeddings para vetorizar a query\n2. Busque no seu vector store (Pinecone, Weaviate, ChromaDB, etc.)\n3. Opcionalmente, use Cohere rerank para melhorar os resultados\n4. Retorne os documentos relevantes\n\nDatasets configurados: "
    ++ toString numDatasets ++ "\n"

/-- `RAGService.generate_rag_response`: LLM text on success, the RAG
fallback on failure; `context` only enters the prompt. -/
def generate_rag_response (res : Option String) (query : String)
    (context : String) (history : History) : String × History :=
  (res.getD ragFallback, appendUserIfNonEmpty query history)

/-- `ExternalAPIService.notify_chatwoot_label`: every exception is caught,
so the call only ever reports a boolean. -/
def notify_chatwoot_label (httpOk : Bool) : Bool :=
  httpOk

/-- `conversation_id = request.conversation_id or str(uuid.uuid4())`
(`main.py` line 97): the caller's id verbatim when present and non-empty
(a present empty string is falsy in Python), otherwise the freshly
generated id. -/
def resolveConversationId (freshId : String) : Option String → String
  | none => freshId
  | some cid => if cid = "" then freshId else cid

/-- Observable external invocations of one routing cycle, in program
order.  `improveQuery` carries the reformulated text it produced,
`retrieve` the query string the retriever was invoked with, `genRag` the
raw query and the context string handed to the RAG generator, and
`notify` the conversation id sent to Chatwoot. -/
inductive Event where
  | fetchUser : Event
  | classify : Event
  | genGreeting : Event
  | improveQuery : String → Event
  | retrieve : String → Event
  | genRag : String → String → Event
  | genAttendance : Event
  | genPraise : Event
  | genOther : Event
  | notify : String → Event
deriving DecidableEq

/-- Which response-generator branch an event belongs to, if any; the
reformulator and retriever are not generators. -/
def generatorKind : Event → Option String
  | Event.genGreeting => some "greeting"
  | Event.genRag _ _ => some "rag"
  | Event.genAttendance => some "attendance"
  | Event.genPraise => some "praise"
  | Event.genOther => some "other"
  | _ => none

/-- Recognizes a Chatwoot notification event. -/
def isNotify : Event → Bool
  | Event.notify _ => true
  | _ => false

/-- The intent dispatch of `main.py` lines 112-164: exact string matches
on `saudacao`, `informacoes`, the two-element list membership for
`atendimento`/`reclamacao`, `elogio`, and a catch-all `else` branch.
Returns the answer, the history as left by the invoked helpers, and the
branch's invocation events in order. -/
def dispatch (o : Oracle) (conversation_id : String) (user_data : UserData)
    (query : String) (intent : String) (history : History) :
    String × History × List Event :=
  if intent = "saudacao" then
    let r := generate_greeting o.greetingRes query user_data.name history
    (r.1, r.2, [Event.genGreeting])
  else if intent = "informacoes" then
    let ir := improve_query_for_rag o.improveRes query history
    let context := retrieve_context ir.1 o.numDatasets
    let rr := generate_rag_response o.ragRes query context ir.2
    (rr.1, rr.2, [Event.improveQuery ir.1, Event.retrieve ir.1, Event.genRag query context])
  else if intent = "atendimento" ∨ intent = "reclamacao" then
    let r := generate_attendance_response o.attendanceRes query history
    let _notified := notify_chatwoot_label o.notifyOk
    (r.1, r.2, [Event.genAttendance, Event.notify conversation_id])
  else if intent = "elogio" then
    let r := generate_praise_response o.praiseRes query history
    (r.1, r.2, [Event.genPraise])
  else
    let r := generate_other_response o.otherRes query history
    (r.1, r.2, [Event.genOther])

/-- One successful routing cycle: `process_query` of `main.py` lines
95-177 (the `try` body).  Returns the response, the updated conversation
store, and the trace of external invocations. -/
def process_query (o : Oracle) (freshId : String) (req : QueryRequest)
    (conversations : Store) : QueryResponse × Store × List Event :=
  let conversation_id := resolveConversationId freshId req.conversation_id
  let history := (storeGet conversations conversation_id).getD []
  let user_data := get_user_by_phone o.userRes
  let c := classify_intent o.classifyRes req.query history
  let d := dispatch o conversation_id user_data req.query c.1 c.2
  let finalHistory := d.2.1 ++ [userTurn req.query, assistantTurn d.1]
  (⟨d.1, c.1, conversation_id⟩,
   storeSet conversations conversation_id finalHistory,
   [Event.fetchUser, Event.classify] ++ d.2.2)

/-- Outcome of the delete endpoint: either the success JSON body or an
`HTTPException` with status code and detail. -/
inductive DeleteOutcome where
  | ok : String → DeleteOutcome
  | httpError : Nat → String → DeleteOutcome
deriving DecidableEq

/-- `delete_conversation` of `main.py` lines 187-197: delete and report
success when the id is present, raise a 404 `HTTPException` otherwise. -/
def delete_conversation (conversations : Store) (conversation_id : String) :
    DeleteOutcome × Store :=
  if (storeGet conversations conversation_id).isSome then
    (DeleteOutcome.ok "Conversation deleted successfully",
     storeDel conversations conversation_id)
  else
    (DeleteOutcome.httpError 404 "Conversation not found", conversations)

/-- The `except` handler of `process_query` (`main.py` lines 179-184):
any exception `e` escaping the cycle is surfaced as an HTTP 500 whose
detail embeds `str(e)` verbatim. -/
def process_query_error (e : String) : Nat × String :=
  (500, "Error processing query: " ++ e)

/-- Iterate N successful routing cycles with the same request and oracle,
threading the conversation store. -/
def runCycles (o : Oracle) (freshId : String) (req : QueryRequest) :
    Nat → Store → Store
  | 0, s => s
  | n + 1, s => runCycles o freshId req n (process_query o freshId req s).2.1

theorem storeGet_storeSet_self (s : Store) (cid : String) (h : History) :
    storeGet (storeSet s cid h) cid = some h := by
  induction s with
  | nil => simp [storeSet, storeGet]
  | cons kv rest ih =>
      obtain ⟨k, v⟩ := kv
      by_cases hk : k = cid
      · simp [storeSet, storeGet, hk]
      · simp [storeSet, storeGet, hk, ih]

theorem storeGet_storeDel_self (s : Store) (cid : String) :
    storeGet (storeDel s cid) cid = none := by
  induction s with
  | nil => simp [storeDel, storeGet]
  | cons kv rest ih =>
      obtain ⟨k, v⟩ := kv
      by_cases hk : k = cid
      · simp [storeDel, hk, ih]
      · simp [storeDel, storeGet, hk, ih]

theorem appendUserIfNonEmpty_nil (q : String) :
    appendUserIfNonEmpty q [] = [] := rfl

theorem appendUserIfNonEmpty_of_ne_nil (q : String) (h : History) (hne : h ≠ []) :
    appendUserIfNonEmpty q h = h ++ [userTurn q] := by
  cases h with
  | nil => exact absurd rfl hne
  | cons a t => rfl

theorem dispatch_history (o : Oracle) (cid : String) (ud : UserData)
    (q intent : String) (h : History) :
    (dispatch o cid ud q intent h).2.1 =
      if intent = "informacoes" then
        appendUserIfNonEmpty q (appendUserIfNonEmpty q h)
      else appendUserIfNonEmpty q h := by
  unfold dispatch
  split_ifs with h1 h2 h3 h4 <;>
    simp_all [generate_greeting, improve_query_for_rag, generate_rag_response,
      generate_attendance_response, generate_praise_response, generate_other_response]

theorem process_query_intent_eq (o : Oracle) (fid : String) (req : QueryRequest)
    (store : Store) :
    (process_query o fid req store).1.intent = o.classifyRes.getD "outros" := rfl

theorem process_query_conversation_id_eq (o : Oracle) (fid : String)
    (req : QueryRequest) (store : Store) :
    (process_query o fid req store).1.conversation_id =
      resolveConversationId fid req.conversation_id := rfl

theorem process_query_answer_eq (o : Oracle) (fid : String) (req : QueryRequest)
    (store : Store) :
    (process_query o fid req store).1.answer =
      (dispatch o (resolveConversationId fid req.conversation_id)
        (get_user_by_phone o.userRes) req.query (o.classifyRes.getD "outros")
        (appendUserIfNonEmpty req.query
          ((storeGet store (resolveConversationId fid req.conversation_id)).getD []))).1 := rfl

theorem process_query_events_eq (o : Oracle) (fid : String) (req : QueryRequest)
    (store : Store) :
    (process_query o fid req store).2.2 =
      [Event.fetchUser, Event.classify] ++
        (dispatch o (resolveConversationId fid req.conversation_id)
          (get_user_by_phone o.userRes) req.query (o.classifyRes.getD "outros")
          (appendUserIfNonEmpty req.query
            ((storeGet store (resolveConversationId fid req.conversation_id)).getD []))).2.2 := rfl

theorem process_query_store_eq (o : Oracle) (fid : String) (req : QueryRequest)
    (store : Store) :
    (process_query o fid req store).2.1 =
      storeSet store (resolveConversationId fid req.conversation_id)
        ((dispatch o (resolveConversationId fid req.conversation_id)
            (get_user_by_phone o.userRes) req.query (o.classifyRes.getD "outros")
            (appendUserIfNonEmpty req.query
              ((storeGet store (resolveConversationId fid req.conversation_id)).getD []))).2.1 ++
          [userTurn req.query,
           assistantTurn (process_query o fid req store).1.answer]) := rfl

theorem dispatch_events (o : Oracle) (cid : String) (ud : UserData)
    (q intent : String) (h : History) :
    (dispatch o cid ud q intent h).2.2 =
      if intent = "saudacao" then [Event.genGreeting]
      else if intent = "informacoes" then
        [Event.improveQuery (o.improveRes.getD q), Event.retrieve (o.improveRes.getD q),
         Event.genRag q (retrieve_context (o.improveRes.getD q) o.numDatasets)]
      else if intent = "atendimento" ∨ intent = "reclamacao" then
        [Event.genAttendance, Event.notify cid]
      else if intent = "elogio" then [Event.genPraise]
      else [Event.genOther] := by
  unfold dispatch
  split_ifs <;> simp [improve_query_for_rag]

/-- The per-branch static fallback, laid out exactly like the routing
table of `main.py`. -/
def branchFallback (intent : String) : String :=
  if intent = "saudacao" then greetingFallback
  else if intent = "informacoes" then ragFallback
  else if intent = "atendimento" ∨ intent = "reclamacao" then attendanceFallback
  else if intent = "elogio" then praiseFallback
  else otherFallback

theorem dispatch_answer_fallback (o : Oracle) (cid : String) (ud : UserData)
    (q intent : String) (h : History)
    (hg : o.greetingRes = none) (hr : o.ragRes = none) (ha : o.attendanceRes = none)
    (hp : o.praiseRes = none) (ho : o.otherRes = none) :
    (dispatch o cid ud q intent h).1 = branchFallback intent := by
  unfold dispatch branchFallback
  split_ifs <;>
    simp_all [generate_greeting, generate_rag_response, generate_attendance_response,
      generate_praise_response, generate_other_response, improve_query_for_rag]

/-- C1: the claimed history-append law (after N successful cycles the
stored history has length exactly 2N, alternating user/assistant, with
the persist step the only mutation point) fails on the code: running two
successful greeting cycles on conversation id `c` leaves six stored
turns whose roles are user, assistant, user, user, user, assistant — the
classifier and generator each appended a duplicate user turn through the
shared history reference, so length is 6, not 4, and the sequence does
not alternate. -/
theorem c1_two_cycles_break_append_law :
    ((storeGet
        (runCycles { classifyRes := some "saudacao", greetingRes := some "hi!" }
          "fid" ⟨"hola", "555", some "c"⟩ 2 [])
        "c").getD []).map Turn.role =
      ["user", "assistant", "user", "user", "user", "assistant"] := by
  decide

/-- C3 counterexample: deleting a conversation id with no stored history
does not report `found=false`; it raises an HTTP 404 error, refuting
"delete on an id with no stored history reports found=false and never
produces an error". -/
theorem c3_delete_unknown_id_errors :
    (delete_conversation [] "missing").1 =
      DeleteOutcome.httpError 404 "Conversation not found" := by
  decide

/-- C3 (amended): deleting an id with stored history reports success and
removes the history (a subsequent lookup finds nothing), while deleting
an unknown id raises a 404 `HTTPException` and leaves the store
unchanged. -/
theorem c3_delete_behavior (store : Store) (cid : String) :
    ((storeGet store cid).isSome = true →
      (delete_conversation store cid).1 =
          DeleteOutcome.ok "Conversation deleted successfully" ∧
        storeGet (delete_conversation store cid).2 cid = none) ∧
    ((storeGet store cid).isSome = false →
      delete_conversation store cid =
        (DeleteOutcome.httpError 404 "Conversation not found", store)) := by
  constructor
  · intro h
    simp [delete_conversation, h, storeGet_storeDel_self]
  · intro h
    simp [delete_conversation, h]

theorem c3_delete_behavior_witness :
    ((delete_conversation [("c", [userTurn "q"])] "c").1 =
        DeleteOutcome.ok "Conversation deleted successfully" ∧
      storeGet (delete_conversation [("c", [userTurn "q"])] "c").2 "c" = none) ∧
    delete_conversation [] "c" =
      (DeleteOutcome.httpError 404 "Conversation not found", []) := by
  have h1 := (c3_delete_behavior [("c", [userTurn "q"])] "c").1 (by decide)
  have h2 := (c3_delete_behavior ([] : Store) "c").2 (by decide)
  exact ⟨h1, h2⟩

/-- C4 counterexample: the message surfaced by the fatal-failure handler
changes with the exception's own text, so it is not a generic message
free of internal diagnostic detail. -/
theorem c4_error_detail_varies :
    (process_query_error "ValueError: boom").2 ≠
      (process_query_error "KeyError: zap").2 := by
  decide

/-- C4 (amended): a fatal failure during a routing cycle is surfaced as
an HTTP 500 whose detail is the text "Error processing query: " followed
verbatim by the exception's own message — the internal detail is
included, and no correlation id is attached. -/
theorem c4_error_surface (e : String) :
    process_query_error e = (500, "Error processing query: " ++ e) := rfl

/-- C6 counterexample: when the classification capability emits the
out-of-set label `banana`, the intent reported to the caller is `banana`
itself, not the catch-all `outros`, refuting "the result reported to the
caller is the catch-all label, never an out-of-set value". -/
theorem c6_out_of_set_label_reported :
    (process_query { classifyRes := some "banana" } "fid"
        ⟨"q", "p", some "c"⟩ []).1.intent = "banana" ∧
      "banana" ≠ "outros" := by
  exact ⟨rfl, by decide⟩

/-- C6 (amended): a classifier label outside the closed six-label set
makes the cycle dispatch to the other-branch generator (and only it),
but the intent reported to the caller is the raw out-of-set label, not
`outros`. -/
theorem c6_out_of_set_dispatch (o : Oracle) (fid : String) (req : QueryRequest)
    (store : Store) (s : String) (hcls : o.classifyRes = some s)
    (hout : s ∉ ["saudacao", "informacoes", "atendimento", "reclamacao", "elogio", "outros"]) :
    (process_query o fid req store).2.2.filterMap generatorKind = ["other"] ∧
    (process_query o fid req store).1.intent = s := by
  simp only [List.mem_cons, List.not_mem_nil, or_false, not_or] at hout
  obtain ⟨h1, h2, h3, h4, h5, h6⟩ := hout
  rw [process_query_events_eq, dispatch_events, process_query_intent_eq, hcls]
  simp [h1, h2, h3, h4, h5, generatorKind]

theorem c6_out_of_set_dispatch_witness :
    (process_query { classifyRes := some "banana" } "fid"
        ⟨"q", "p", some "c"⟩ []).2.2.filterMap generatorKind = ["other"] ∧
    (process_query { classifyRes := some "banana" } "fid"
        ⟨"q", "p", some "c"⟩ []).1.intent = "banana" :=
  c6_out_of_set_dispatch { classifyRes := some "banana" } "fid"
    ⟨"q", "p", some "c"⟩ [] "banana" rfl (by decide)

/-- C2: when the classifier yields each of the six labels, the cycle
invokes exactly the routing table's generator for that label and no
other generator: the generator-invocation trace is the corresponding
singleton (`atendimento` and `reclamacao` share the single hand-off
branch `generate_attendance_response`, as in the source's two-label
membership test). -/
theorem c2_dispatch_by_label (o : Oracle) (fid : String) (req : QueryRequest)
    (store : Store) (lbl : String)
    (hcls : o.classifyRes = some lbl)
    (hlbl : lbl ∈ ["saudacao", "informacoes", "atendimento", "reclamacao", "elogio", "outros"]) :
    (process_query o fid req store).2.2.filterMap generatorKind =
      [if lbl = "saudacao" then "greeting"
       else if lbl = "informacoes" then "rag"
       else if lbl = "atendimento" ∨ lbl = "reclamacao" then "attendance"
       else if lbl = "elogio" then "praise"
       else "other"] := by
  fin_cases hlbl <;>
    rw [process_query_events_eq, dispatch_events, hcls] <;>
    simp [generatorKind]

theorem c2_dispatch_by_label_witness :
    (process_query { classifyRes := some "informacoes" } "fid"
        ⟨"q", "p", none⟩ []).2.2.filterMap generatorKind = ["rag"] := by
  have h := c2_dispatch_by_label { classifyRes := some "informacoes" } "fid"
    ⟨"q", "p", none⟩ [] "informacoes" rfl (by decide)
  rw [h]
  decide

/-- C5: whenever the dispatched branch's generation call fails, the
returned answer is that branch's own hardcoded fallback string (laid out
per-branch in `branchFallback`), and the five branch fallbacks are
pairwise distinct, so the fallback is branch-specific, not a unified
generic one. -/
theorem c5_generator_failure_fallback (o : Oracle) (fid : String)
    (req : QueryRequest) (store : Store)
    (hg : o.greetingRes = none) (hr : o.ragRes = none)
    (ha : o.attendanceRes = none) (hp : o.praiseRes = none)
    (ho : o.otherRes = none) :
    (process_query o fid req store).1.answer =
      branchFallback (o.classifyRes.getD "outros") ∧
    [greetingFallback, ragFallback, attendanceFallback, praiseFallback,
      otherFallback].Nodup := by
  refine ⟨?_, by decide⟩
  rw [process_query_answer_eq]
  exact dispatch_answer_fallback o _ _ req.query _ _ hg hr ha hp ho

theorem c5_generator_failure_fallback_witness :
    (process_query { classifyRes := some "saudacao" } "fid"
        ⟨"hola", "p", none⟩ []).1.answer = branchFallback "saudacao" ∧
    [greetingFallback, ragFallback, attendanceFallback, praiseFallback,
      otherFallback].Nodup := by
  have h := c5_generator_failure_fallback { classifyRes := some "saudacao" } "fid"
    ⟨"hola", "p", none⟩ [] rfl rfl rfl rfl rfl
  exact h

/-- C7: the Chatwoot notification fires exactly once per cycle when the
classified intent is `atendimento` or `reclamacao` and never otherwise;
in the firing case the trace shows the hand-off generator invoked before
the notification (so the answer exists first); and the notification
outcome affects neither the response nor the stored history. -/
theorem c7_notifier_contract (o : Oracle) (fid : String) (req : QueryRequest)
    (store : Store) :
    ((process_query o fid req store).2.2.countP isNotify =
      if o.classifyRes.getD "outros" = "atendimento" ∨
          o.classifyRes.getD "outros" = "reclamacao" then 1 else 0) ∧
    ((o.classifyRes.getD "outros" = "atendimento" ∨
        o.classifyRes.getD "outros" = "reclamacao") →
      (process_query o fid req store).2.2 =
        [Event.fetchUser, Event.classify, Event.genAttendance,
         Event.notify ((process_query o fid req store).1.conversation_id)]) ∧
    (∀ b : Bool,
      (process_query { o with notifyOk := b } fid req store).1 =
          (process_query o fid req store).1 ∧
        (process_query { o with notifyOk := b } fid req store).2.1 =
          (process_query o fid req store).2.1) := by
  refine ⟨?_, ?_, ?_⟩
  · rw [process_query_events_eq, dispatch_events]
    split_ifs <;> simp_all [isNotify]
  · intro h
    rw [process_query_events_eq, dispatch_events, process_query_conversation_id_eq]
    rcases h with h | h <;> simp [h]
  · intro b
    exact ⟨rfl, rfl⟩

theorem c7_notifier_contract_witness :
    (process_query { classifyRes := some "reclamacao" } "fid"
        ⟨"q", "p", some "c"⟩ []).2.2 =
      [Event.fetchUser, Event.classify, Event.genAttendance,
       Event.notify ((process_query { classifyRes := some "reclamacao" } "fid"
          ⟨"q", "p", some "c"⟩ []).1.conversation_id)] :=
  (c7_notifier_contract { classifyRes := some "reclamacao" } "fid"
    ⟨"q", "p", some "c"⟩ []).2.1 (Or.inr rfl)

/-- C8: on the information intent, the trace is reformulate, then
retrieve, then generate: the retriever is invoked with the
reformulator's output `s` (and with nothing else), and the RAG generator
receives the raw query together with the context retrieved for `s`. -/
theorem c8_rag_pipeline_order (o : Oracle) (fid : String) (req : QueryRequest)
    (store : Store) (s : String)
    (hcls : o.classifyRes = some "informacoes") (himp : o.improveRes = some s) :
    (process_query o fid req store).2.2 =
      [Event.fetchUser, Event.classify, Event.improveQuery s, Event.retrieve s,
       Event.genRag req.query (retrieve_context s o.numDatasets)] ∧
    (∀ t, Event.retrieve t ∈ (process_query o fid req store).2.2 → t = s) := by
  rw [process_query_events_eq, dispatch_events, hcls, himp]
  refine ⟨by simp, ?_⟩
  intro t ht
  simp at ht
  exact ht

theorem c8_rag_pipeline_order_witness :
    (process_query { classifyRes := some "informacoes", improveRes := some "mejor" }
        "fid" ⟨"cuanto", "p", none⟩ []).2.2 =
      [Event.fetchUser, Event.classify, Event.improveQuery "mejor",
       Event.retrieve "mejor", Event.genRag "cuanto" (retrieve_context "mejor" 0)] := by
  have h := c8_rag_pipeline_order
    { classifyRes := some "informacoes", improveRes := some "mejor" } "fid"
    ⟨"cuanto", "p", none⟩ [] "mejor" rfl rfl
  exact h.1

theorem prefix_appendUserIfNonEmpty (q : String) (l : History) :
    l <+: appendUserIfNonEmpty q l := by
  unfold appendUserIfNonEmpty
  split_ifs
  · exact List.prefix_rfl
  · exact List.prefix_append l [userTurn q]

/-- C9: the conversation id used and returned is the caller's id
verbatim when present and non-empty, else the freshly generated id;
re-supplying an id continues (extends) that id's stored history, and a
fresh, previously-unseen id starts from empty history, ending the cycle
with exactly the user/assistant pair. -/
theorem c9_conversation_id_stability (o : Oracle) (fid : String)
    (req : QueryRequest) (store : Store) :
    (∀ cid, req.conversation_id = some cid → cid ≠ "" →
      (process_query o fid req store).1.conversation_id = cid) ∧
    ((req.conversation_id = none ∨ req.conversation_id = some "") →
      (process_query o fid req store).1.conversation_id = fid) ∧
    (∀ cid, req.conversation_id = some cid → cid ≠ "" →
      (storeGet store cid).getD [] <+:
        (storeGet (process_query o fid req store).2.1 cid).getD []) ∧
    (req.conversation_id = none → storeGet store fid = none →
      (storeGet (process_query o fid req store).2.1 fid).getD [] =
        [userTurn req.query,
         assistantTurn (process_query o fid req store).1.answer]) := by
  refine ⟨?_, ?_, ?_, ?_⟩
  · intro cid hc hne
    rw [process_query_conversation_id_eq, hc]
    simp [resolveConversationId, hne]
  · intro h
    rcases h with h | h <;> rw [process_query_conversation_id_eq, h] <;>
      simp [resolveConversationId]
  · intro cid hc hne
    have hrid : resolveConversationId fid req.conversation_id = cid := by
      rw [hc]; simp [resolveConversationId, hne]
    rw [process_query_store_eq, hrid, storeGet_storeSet_self]
    simp only [Option.getD_some]
    rw [dispatch_history]
    split_ifs
    · exact (((prefix_appendUserIfNonEmpty req.query _).trans
        (prefix_appendUserIfNonEmpty req.query _)).trans
        (prefix_appendUserIfNonEmpty req.query _)).trans (List.prefix_append _ _)
    · exact ((prefix_appendUserIfNonEmpty req.query _).trans
        (prefix_appendUserIfNonEmpty req.query _)).trans (List.prefix_append _ _)
  · intro hc hget
    have hrid : resolveConversationId fid req.conversation_id = fid := by
      rw [hc]; rfl
    rw [process_query_store_eq, hrid, hget, storeGet_storeSet_self]
    simp only [Option.getD_some, Option.getD_none]
    rw [dispatch_history]
    simp [appendUserIfNonEmpty]

theorem c9_conversation_id_stability_witness :
    ((process_query { classifyRes := some "elogio" } "fid" ⟨"q", "p", some "c"⟩
        [("c", [userTurn "x", assistantTurn "y"])]).1.conversation_id = "c") ∧
    ((process_query { classifyRes := some "elogio" } "fid"
        ⟨"q", "p", none⟩ []).1.conversation_id = "fid") ∧
    ((storeGet [("c", [userTurn "x", assistantTurn "y"])] "c").getD [] <+:
      (storeGet (process_query { classifyRes := some "elogio" } "fid"
          ⟨"q", "p", some "c"⟩
          [("c", [userTurn "x", assistantTurn "y"])]).2.1 "c").getD []) ∧
    ((storeGet (process_query { classifyRes := some "elogio" } "fid"
        ⟨"q", "p", none⟩ []).2.1 "fid").getD [] =
      [userTurn "q",
       assistantTurn (process_query { classifyRes := some "elogio" } "fid"
          ⟨"q", "p", none⟩ []).1.answer]) := by
  have h1 := c9_conversation_id_stability { classifyRes := some "elogio" } "fid"
    ⟨"q", "p", some "c"⟩ [("c", [userTurn "x", assistantTurn "y"])]
  have h2 := c9_conversation_id_stability { classifyRes := some "elogio" } "fid"
    ⟨"q", "p", none⟩ []
  exact ⟨h1.1 "c" rfl (by decide), h2.2.1 (Or.inl rfl),
    h1.2.2.1 "c" rfl (by decide), h2.2.2.2 rfl rfl⟩

theorem appendUserIfNonEmpty_append (q : String) (l : History) (t : Turn) :
    appendUserIfNonEmpty q (l ++ [t]) = l ++ [t] ++ [userTurn q] :=
  appendUserIfNonEmpty_of_ne_nil q (l ++ [t]) (by simp)

/-- C10: a cycle on an id whose stored history is non-empty grows that
history through the shared list reference: the classifier and the
dispatched generator each append their own copy of the user turn before
the router's final pair, so the stored history gains 3 copies of the
user turn plus the assistant turn (4 copies plus the assistant turn on
the information intent, whose reformulator also appends), while a first
cycle on empty history gains exactly the user/assistant pair because
`history or []` substitutes a fresh unshared list. -/
theorem c10_shared_history_growth (o : Oracle) (fid : String)
    (req : QueryRequest) (store : Store) (cid : String)
    (hcid : req.conversation_id = some cid) (hne : cid ≠ "") :
    ((storeGet store cid).getD [] ≠ [] →
      (storeGet (process_query o fid req store).2.1 cid).getD [] =
        (storeGet store cid).getD [] ++
          List.replicate
            (if o.classifyRes.getD "outros" = "informacoes" then 4 else 3)
            (userTurn req.query) ++
          [assistantTurn (process_query o fid req store).1.answer]) ∧
    ((storeGet store cid).getD [] = [] →
      (storeGet (process_query o fid req store).2.1 cid).getD [] =
        [userTurn req.query,
         assistantTurn (process_query o fid req store).1.answer]) := by
  have hrid : resolveConversationId fid req.conversation_id = cid := by
    rw [hcid]; simp [resolveConversationId, hne]
  constructor
  · intro hl
    rw [process_query_store_eq, hrid, storeGet_storeSet_self]
    simp only [Option.getD_some]
    rw [dispatch_history, appendUserIfNonEmpty_of_ne_nil _ _ hl]
    split_ifs with hI
    · rw [appendUserIfNonEmpty_append, appendUserIfNonEmpty_append]
      simp [List.replicate_succ, List.append_assoc]
    · rw [appendUserIfNonEmpty_append]
      simp [List.replicate_succ, List.append_assoc]
  · intro hl
    rw [process_query_store_eq, hrid, hl, storeGet_storeSet_self]
    simp only [Option.getD_some]
    rw [dispatch_history]
    simp [appendUserIfNonEmpty]

theorem c10_shared_history_growth_witness :
    (storeGet (process_query
        { classifyRes := some "informacoes", improveRes := some "m", ragRes := some "ans" }
        "fid" ⟨"q", "p", some "c"⟩
        [("c", [userTurn "x", assistantTurn "y"])]).2.1 "c").getD [] =
      [userTurn "x", assistantTurn "y", userTurn "q", userTurn "q", userTurn "q",
       userTurn "q", assistantTurn "ans"] := by
  have h := (c10_shared_history_growth
    { classifyRes := some "informacoes", improveRes := some "m", ragRes := some "ans" }
    "fid" ⟨"q", "p", some "c"⟩ [("c", [userTurn "x", assistantTurn "y"])] "c"
    rfl (by decide)).1 (by decide)
  rw [h]
  decide

end EcoDrive
